import Mathlib

/-!
Shallow embedding of the Cache Resell Estimator page
(src/src/app/page.tsx) and proofs about its specified behaviour.

The page is a single React component owning four pieces of state
(formData, result, errors, isLoading) and four operations
(handleChange, validateForm, handleSubmit, handleReset).  Strings are
modelled as Lean strings; the JavaScript string primitives used by the
code (trim, the price regex test, the global character-class replace)
are embedded below as executable functions over the character list of
the string.  The effectful React operations become explicit state
transformers; handleSubmit additionally returns the list of network
requests it issued and the list of console log lines it produced, so
that claims about network calls and logging are statable.
-/

/-- Whitespace test used to model JavaScript String.prototype.trim. -/
def jsWhitespace (c : Char) : Bool := c.isWhitespace

/-- Drop whitespace from both ends of a character list. -/
def trimChars (l : List Char) : List Char :=
  ((l.dropWhile jsWhitespace).reverse.dropWhile jsWhitespace).reverse

/-- Model of JavaScript String.prototype.trim. -/
def jsTrim (s : String) : String := ⟨trimChars s.data⟩

/-- Model of the anchored regex test used by validateForm: one or more
digits, optionally followed by a dot and one or two digits. -/
def pricePat (s : String) : Bool :=
  let ds := s.data.takeWhile Char.isDigit
  let rest := s.data.dropWhile Char.isDigit
  !ds.isEmpty &&
    (match rest with
     | [] => true
     | '.' :: fs => fs.all Char.isDigit && (fs.length == 1 || fs.length == 2)
     | _ => false)

/-- Clothing condition enumeration (the clothingUse select options). -/
inductive ClothingUse where
  | notWorn
  | lightWear
  | mediumWear
  | heavyWear
deriving DecidableEq, Repr

/-- String value of a clothingUse option, as in the source. -/
def ClothingUse.str : ClothingUse → String
  | .notWorn => "Not Worn"
  | .lightWear => "Light Wear"
  | .mediumWear => "Medium Wear"
  | .heavyWear => "Heavy Wear"

/-- Item age enumeration (the yearsOld select options). -/
inductive YearsOld where
  | lessThan1
  | oneToTwo
  | twoToFour
  | fourPlus
deriving DecidableEq, Repr

/-- String value of a yearsOld option, as in the source. -/
def YearsOld.str : YearsOld → String
  | .lessThan1 => "Less than 1 year"
  | .oneToTwo => "1-2 years"
  | .twoToFour => "2-4 years"
  | .fourPlus => "4+ years"

/-- The FormData interface of the page. -/
structure FormData where
  brand : String
  category : String
  originalPrice : String
  clothingUse : ClothingUse
  yearsOld : YearsOld
deriving DecidableEq, Repr

/-- The Result interface of the page: estimated price plus a snapshot
of the form data submitted. -/
structure Result where
  estimatedPrice : String
  data : FormData
deriving DecidableEq, Repr

/-- The errors record: validateForm only ever writes entries for the
three text fields, so the error map is modelled by three optional
messages. -/
structure ValidationErrors where
  brand : Option String
  category : Option String
  originalPrice : Option String
deriving DecidableEq, Repr

/-- The empty error map. -/
def ValidationErrors.empty : ValidationErrors := ⟨none, none, none⟩

/-- Object.keys(e).length === 0 for the error map. -/
def ValidationErrors.isEmpty (e : ValidationErrors) : Bool :=
  e.brand.isNone && e.category.isNone && e.originalPrice.isNone

/-- The component state: formData, result, errors, isLoading. -/
structure State where
  formData : FormData
  result : Option Result
  errors : ValidationErrors
  isLoading : Bool
deriving DecidableEq, Repr

/-- Default form values passed to useState on first render. -/
def defaultFormData : FormData :=
  { brand := ""
    category := ""
    originalPrice := ""
    clothingUse := .notWorn
    yearsOld := .lessThan1 }

/-- Initial component state. -/
def initialState : State :=
  { formData := defaultFormData
    result := none
    errors := ValidationErrors.empty
    isLoading := false }

/-- The fresh error map computed inside validateForm (the local
newErrors object): brand and category required after trimming;
originalPrice required after trimming and must pass the price regex. -/
def newErrors (fd : FormData) : ValidationErrors :=
  { brand := if jsTrim fd.brand = "" then some "Brand name is required" else none
    category := if jsTrim fd.category = "" then some "Category is required" else none
    originalPrice :=
      if jsTrim fd.originalPrice = "" then some "Original price is required"
      else if !pricePat fd.originalPrice then some "Please enter a valid number"
      else none }

/-- validateForm as the source defines it: recomputes the error map
from the current form data, stores it with setErrors, and returns
whether it is empty. -/
def validateForm (s : State) : State × Bool :=
  ({ s with errors := newErrors s.formData },
   (newErrors s.formData).isEmpty)

/-- A field update event delivered by handleChange.  The two select
inputs can only deliver values of their option enumeration, so those
carry the enumeration directly. -/
inductive FieldUpdate where
  | brand (v : String)
  | category (v : String)
  | originalPrice (v : String)
  | clothingUse (v : ClothingUse)
  | yearsOld (v : YearsOld)
deriving DecidableEq, Repr

/-- handleChange: sets the named field and clears any prior validation
error for that field (errors for the two selects never exist, so only
the three text fields can be cleared). -/
def handleChange (s : State) (u : FieldUpdate) : State :=
  match u with
  | .brand v =>
      { s with formData := { s.formData with brand := v }
               errors := { s.errors with brand := none } }
  | .category v =>
      { s with formData := { s.formData with category := v }
               errors := { s.errors with category := none } }
  | .originalPrice v =>
      { s with formData := { s.formData with originalPrice := v }
               errors := { s.errors with originalPrice := none } }
  | .clothingUse v =>
      { s with formData := { s.formData with clothingUse := v } }
  | .yearsOld v =>
      { s with formData := { s.formData with yearsOld := v } }

/-- A chat message of the completion request. -/
structure Message where
  role : String
  content : String
deriving DecidableEq, Repr

/-- The completion request issued by handleSubmit.  The sampling
temperature is recorded as its source literal text. -/
structure ChatRequest where
  model : String
  messages : List Message
  maxTokens : Nat
  temperature : String
  n : Nat
deriving DecidableEq, Repr

/-- The interpolated user prompt built from the five form fields. -/
def promptText (fd : FormData) : String :=
  "Estimate the resale value of a " ++ fd.category ++ " from " ++ fd.brand ++
  " that is " ++ fd.clothingUse.str ++ " and " ++ fd.yearsOld.str ++
  " old. The original price was $" ++ fd.originalPrice ++
  ". Output only the number amount you think it would cost."

/-- The request handleSubmit sends to client.chat.completions.create. -/
def mkRequest (fd : FormData) : ChatRequest :=
  { model := "gpt-4o-mini-2024-07-18"
    messages :=
      [ { role := "system", content := "You are a helpful assistant." }
      , { role := "user", content := promptText fd } ]
    maxTokens := 300
    temperature := "0.7"
    n := 1 }

/-- Outcome of the awaited network call: a successful completion whose
first choice carries the given message content, or any transport
failure (network error, malformed response, non-2xx status). -/
inductive NetResponse where
  | success (content : String)
  | failure
deriving DecidableEq, Repr

/-- The numericPrice local of handleSubmit: the raw reply with every
character other than an ASCII digit or a dot removed (the global
replace of the class complementing 0-9 and dot). -/
def numericPrice (rawContent : String) : String :=
  ⟨rawContent.data.filter fun c => c.isDigit || c == '.'⟩

/-- The stored estimatedPrice: numericPrice with fallback to the
literal zero text when the stripped reply is empty. -/
def estimatedPriceOf (rawContent : String) : String :=
  if numericPrice rawContent = "" then "0" else numericPrice rawContent

/-- What one call to handleSubmit did: the state it left behind, the
network requests it issued, and the console error lines it logged. -/
structure SubmitResult where
  state : State
  requests : List ChatRequest
  logs : List String
deriving DecidableEq, Repr

/-- handleSubmit: validates (storing the fresh error map); on invalid
input returns at once with no request and no loading change; on valid
input sets the loading flag, issues the one completion request, on
success stores the parsed price with a snapshot of the form data, on
failure logs the error and leaves the result alone, and in both cases
finally clears the loading flag. -/
def handleSubmit (s : State) (resp : NetResponse) : SubmitResult :=
  let ne := newErrors s.formData
  let s1 : State := { s with errors := ne }
  if ne.isEmpty then
    let s2 : State := { s1 with isLoading := true }
    let req := mkRequest s2.formData
    match resp with
    | .success content =>
        { state := { s2 with
                      result := some { estimatedPrice := estimatedPriceOf content
                                       data := s2.formData }
                      isLoading := false }
          requests := [req]
          logs := [] }
    | .failure =>
        { state := { s2 with isLoading := false }
          requests := [req]
          logs := ["Error calling GPT API:"] }
  else
    { state := s1, requests := [], logs := [] }

/-- handleReset: restores the default form values and clears result
and errors.  The loading flag is not touched. -/
def handleReset (s : State) : State :=
  { s with formData := defaultFormData
           result := none
           errors := ValidationErrors.empty }

/-- The submit button is disabled exactly while loading. -/
def submitDisabled (s : State) : Bool := s.isLoading

/-- A submit attempt through the page: the disabled button swallows
the trigger while a request is in flight, otherwise handleSubmit
runs. -/
def uiSubmit (s : State) (resp : NetResponse) : SubmitResult :=
  if submitDisabled s then { state := s, requests := [], logs := [] }
  else handleSubmit s resp

/-- States reachable from the initial render by any interleaving of
the operations of the page. -/
inductive Reachable : State → Prop where
  | init : Reachable initialState
  | change {s : State} (u : FieldUpdate) : Reachable s → Reachable (handleChange s u)
  | validate {s : State} : Reachable s → Reachable (validateForm s).1
  | submit {s : State} (resp : NetResponse) : Reachable s →
      Reachable (handleSubmit s resp).state
  | reset {s : State} : Reachable s → Reachable (handleReset s)

/-- An ASCII digit is not a whitespace character. -/
theorem digit_not_whitespace {c : Char} (h : c.isDigit = true) :
    jsWhitespace c = false := by
  simp [Char.isDigit] at h
  rcases h with ⟨h1, h2⟩
  apply Bool.eq_false_iff.mpr
  intro hw
  simp [jsWhitespace, Char.isWhitespace] at hw
  rcases hw with ((rfl | rfl) | rfl) | rfl <;> revert h1 <;> decide

/-- Trimming yields the empty list exactly when every character is
whitespace. -/
theorem trimChars_eq_nil_iff (l : List Char) :
    trimChars l = [] ↔ ∀ c ∈ l, jsWhitespace c = true := by
  unfold trimChars
  rw [List.reverse_eq_nil_iff, List.dropWhile_eq_nil_iff]
  constructor
  · intro h c hc
    rcases List.mem_append.mp
        (by rw [List.takeWhile_append_dropWhile]; exact hc :
          c ∈ l.takeWhile jsWhitespace ++ l.dropWhile jsWhitespace) with h1 | h2
    · exact List.mem_takeWhile_imp h1
    · exact h c (List.mem_reverse.mpr h2)
  · intro h x hx
    exact h x ((List.dropWhile_sublist jsWhitespace).subset (List.mem_reverse.mp hx))

/-- The JavaScript trim of a string is empty exactly when every
character of the string is whitespace. -/
theorem jsTrim_eq_empty_iff (s : String) :
    jsTrim s = "" ↔ ∀ c ∈ s.data, jsWhitespace c = true := by
  unfold jsTrim
  rw [String.ext_iff]
  exact trimChars_eq_nil_iff s.data

/-- A string passing the price pattern starts with a digit. -/
theorem pricePat_head {s : String} (h : pricePat s = true) :
    ∃ c t, s.data = c :: t ∧ c.isDigit = true := by
  unfold pricePat at h
  cases hd : s.data with
  | nil => rw [hd] at h; simp at h
  | cons c t =>
    rw [hd] at h
    by_cases hc : c.isDigit = true
    · exact ⟨c, t, rfl, hc⟩
    · rw [List.takeWhile_cons] at h
      simp [hc] at h

/-- A string passing the price pattern is non-empty. -/
theorem pricePat_ne_empty {s : String} (h : pricePat s = true) : s ≠ "" := by
  obtain ⟨c, t, hd, _⟩ := pricePat_head h
  intro he
  subst he
  rw [show ("" : String).data = [] from rfl] at hd
  simp at hd

/-- A string passing the price pattern does not trim to the empty
string. -/
theorem pricePat_trim_ne {s : String} (h : pricePat s = true) : jsTrim s ≠ "" := by
  obtain ⟨c, t, hd, hdig⟩ := pricePat_head h
  intro he
  have hall := (jsTrim_eq_empty_iff s).mp he
  have hmem : c ∈ s.data := by rw [hd]; exact List.mem_cons_self c t
  have hws := hall c hmem
  rw [digit_not_whitespace hdig] at hws
  exact Bool.false_ne_true hws

/-- C1: validateForm returns an empty error map exactly when brand and
category are non-empty after trimming and originalPrice is non-empty
and passes the price pattern; whenever a rule fails, the map carries an
entry for exactly the failing fields. -/
theorem c1_validate_empty_iff (fd : FormData) :
    ((newErrors fd).isEmpty = true ↔
       (jsTrim fd.brand ≠ "" ∧ jsTrim fd.category ≠ "" ∧
        fd.originalPrice ≠ "" ∧ pricePat fd.originalPrice = true)) ∧
    ((newErrors fd).brand.isSome = true ↔ jsTrim fd.brand = "") ∧
    ((newErrors fd).category.isSome = true ↔ jsTrim fd.category = "") ∧
    ((newErrors fd).originalPrice.isSome = true ↔
       (fd.originalPrice = "" ∨ pricePat fd.originalPrice = false)) := by
  have hemp : fd.originalPrice = "" → jsTrim fd.originalPrice = "" := by
    intro e; rw [e]; rfl
  by_cases hb : jsTrim fd.brand = "" <;>
  by_cases hc : jsTrim fd.category = "" <;>
  by_cases hp : jsTrim fd.originalPrice = "" <;>
  by_cases hq : pricePat fd.originalPrice = true
  all_goals
    first
    | exact absurd hp (pricePat_trim_ne hq)
    | (simp [newErrors, ValidationErrors.isEmpty, hb, hc, hp, hq,
             Bool.eq_false_iff]
       first
       | exact pricePat_ne_empty hq
       | exact fun e => (pricePat_trim_ne hq) (hemp e)
       | exact fun e => hq (absurd (hemp e) hp)
       | skip)

/-- C2: on input whose validation map is non-empty, handleSubmit stores
that map, issues no network request, logs nothing, touches neither the
loading flag nor the result, and returns at once. -/
theorem c2_invalid_submit_no_network (s : State) (resp : NetResponse)
    (h : (newErrors s.formData).isEmpty = false) :
    handleSubmit s resp =
      { state := { s with errors := newErrors s.formData }
        requests := []
        logs := [] } ∧
    (handleSubmit s resp).state.result = s.result ∧
    (handleSubmit s resp).state.isLoading = s.isLoading ∧
    (handleSubmit s resp).state.errors = newErrors s.formData ∧
    (handleSubmit s resp).requests = [] := by
  have h1 : handleSubmit s resp =
      { state := { s with errors := newErrors s.formData }
        requests := []
        logs := [] } := by
    simp [handleSubmit, h]
  refine ⟨h1, ?_, ?_, ?_, ?_⟩ <;> rw [h1]

/-- Witness for C2 at the initial state, whose empty brand fails
validation. -/
theorem c2_witness :
    (newErrors initialState.formData).isEmpty = false ∧
    (handleSubmit initialState NetResponse.failure).requests = [] :=
  ⟨by decide,
   (c2_invalid_submit_no_network initialState NetResponse.failure (by decide)).2.2.2.2⟩

/-- A state with a stale brand error and a form that now validates,
used to exhibit the error-state write performed by validateForm. -/
def staleErrorState : State :=
  { formData :=
      { brand := "Nike", category := "Hoodie", originalPrice := "80"
        clothingUse := .notWorn, yearsOld := .lessThan1 }
    result := none
    errors := { brand := some "Brand name is required"
                category := none, originalPrice := none }
    isLoading := false }

/-- C6 counterexample: validateForm is not free of side effects — on a
state holding a stale brand error over now-valid form data it replaces
the stored error map, so the error state changes. -/
theorem c6_counterexample :
    (validateForm staleErrorState).1.errors ≠ staleErrorState.errors := by decide

/-- C6 amended: validateForm is deterministic in the form data and
leaves the form data, result and loading flag unchanged, but it
overwrites the stored error state with the freshly computed map. -/
theorem c6_validate_deterministic_frame (s t : State)
    (h : s.formData = t.formData) :
    (validateForm s).1.formData = s.formData ∧
    (validateForm s).1.result = s.result ∧
    (validateForm s).1.isLoading = s.isLoading ∧
    (validateForm s).1.errors = newErrors s.formData ∧
    (validateForm s).2 = (validateForm t).2 ∧
    (validateForm s).1.errors = (validateForm t).1.errors := by
  simp [validateForm, h]

/-- Witness for C6 amended at the initial state. -/
theorem c6_witness :
    initialState.formData = initialState.formData ∧
    (validateForm initialState).1.result = initialState.result :=
  ⟨rfl, (c6_validate_deterministic_frame initialState initialState rfl).2.1⟩

/-- C8: while the loading flag is set the submit trigger is disabled,
so a submit attempt issues no network request and changes nothing. -/
theorem c8_no_second_request_while_loading (s : State) (resp : NetResponse)
    (h : s.isLoading = true) :
    uiSubmit s resp = { state := s, requests := [], logs := [] } := by
  simp [uiSubmit, submitDisabled, h]

/-- Witness for C8 on a concrete loading state. -/
theorem c8_witness :
    ({ initialState with isLoading := true } : State).isLoading = true ∧
    uiSubmit { initialState with isLoading := true } NetResponse.failure =
      { state := { initialState with isLoading := true }
        requests := [], logs := [] } :=
  ⟨rfl, c8_no_second_request_while_loading
          { initialState with isLoading := true } NetResponse.failure rfl⟩

/-- C9: handleReset restores the default form values, clears the error
map and the result, leaves the loading flag alone, and is
idempotent. -/
theorem c9_reset_defaults (s : State) :
    (handleReset s).formData = defaultFormData ∧
    (handleReset s).errors = ValidationErrors.empty ∧
    (handleReset s).result = none ∧
    (handleReset s).isLoading = s.isLoading ∧
    handleReset (handleReset s) = handleReset s := by
  simp [handleReset]

/-- C7: on input with an empty validation map, handleSubmit issues
exactly one completion request: the fixed model, a system message, the
interpolated user message over the five fields, a 300-token output
bound, temperature 0.7 and a single completion. -/
theorem c7_valid_submit_single_request (s : State) (resp : NetResponse)
    (h : (newErrors s.formData).isEmpty = true) :
    (handleSubmit s resp).requests =
      [{ model := "gpt-4o-mini-2024-07-18"
         messages :=
           [ { role := "system", content := "You are a helpful assistant." }
           , { role := "user", content :=
                 "Estimate the resale value of a " ++ s.formData.category ++
                 " from " ++ s.formData.brand ++ " that is " ++
                 s.formData.clothingUse.str ++ " and " ++
                 s.formData.yearsOld.str ++
                 " old. The original price was $" ++ s.formData.originalPrice ++
                 ". Output only the number amount you think it would cost." } ]
         maxTokens := 300
         temperature := "0.7"
         n := 1 }] := by
  cases resp <;> simp [handleSubmit, h, mkRequest, promptText]

/-- Witness for C7 at a concrete valid state. -/
theorem c7_witness :
    (newErrors staleErrorState.formData).isEmpty = true ∧
    (handleSubmit staleErrorState NetResponse.failure).requests =
      [{ model := "gpt-4o-mini-2024-07-18"
         messages :=
           [ { role := "system", content := "You are a helpful assistant." }
           , { role := "user", content :=
                 "Estimate the resale value of a " ++
                 staleErrorState.formData.category ++
                 " from " ++ staleErrorState.formData.brand ++ " that is " ++
                 staleErrorState.formData.clothingUse.str ++ " and " ++
                 staleErrorState.formData.yearsOld.str ++
                 " old. The original price was $" ++
                 staleErrorState.formData.originalPrice ++
                 ". Output only the number amount you think it would cost." } ]
         maxTokens := 300
         temperature := "0.7"
         n := 1 }] :=
  ⟨by decide,
   c7_valid_submit_single_request staleErrorState NetResponse.failure (by decide)⟩

/-- C5: a transport failure on a valid submit leaves the result
untouched, clears the loading flag, logs the failure, and a subsequent
successful submit on the resulting state stores a result. -/
theorem c5_transport_failure_recoverable (s : State)
    (h : (newErrors s.formData).isEmpty = true) :
    (handleSubmit s NetResponse.failure).state.result = s.result ∧
    (handleSubmit s NetResponse.failure).state.isLoading = false ∧
    (handleSubmit s NetResponse.failure).logs = ["Error calling GPT API:"] ∧
    ∀ content : String,
      (handleSubmit (handleSubmit s NetResponse.failure).state
          (NetResponse.success content)).state.result =
        some { estimatedPrice := estimatedPriceOf content
               data := s.formData } := by
  refine ⟨?_, ?_, ?_, ?_⟩ <;> simp [handleSubmit, h]

/-- Witness for C5 at a concrete valid state. -/
theorem c5_witness :
    (newErrors staleErrorState.formData).isEmpty = true ∧
    (handleSubmit staleErrorState NetResponse.failure).state.result =
      staleErrorState.result :=
  ⟨by decide, (c5_transport_failure_recoverable staleErrorState (by decide)).1⟩

/-- Specification-side description of the reply stripping: keep exactly
the characters lying between 0 and 9 together with the dot. -/
def stripSpec : List Char → List Char
  | [] => []
  | c :: cs =>
      if ('0' ≤ c ∧ c ≤ '9') ∨ c = '.' then c :: stripSpec cs
      else stripSpec cs

/-- The stripping of handleSubmit agrees with the specification-side
description. -/
theorem stripSpec_eq_filter (l : List Char) :
    stripSpec l = l.filter (fun c => c.isDigit || c == '.') := by
  induction l with
  | nil => rfl
  | cons c cs ih =>
    have hcond : (c.isDigit || c == '.') =
        decide (('0' ≤ c ∧ c ≤ '9') ∨ c = '.') := by
      simp [Char.isDigit, Char.le_def, Bool.beq_eq_decide_eq]
    simp only [stripSpec, List.filter_cons, hcond, ih]
    by_cases h : ('0' ≤ c ∧ c ≤ '9') ∨ c = '.' <;> simp [h]

/-- The stored price in terms of the specification-side stripping. -/
theorem estimatedPriceOf_eq_spec (content : String) :
    estimatedPriceOf content =
      (if stripSpec content.data = [] then "0"
       else String.mk (stripSpec content.data)) := by
  unfold estimatedPriceOf numericPrice
  rw [stripSpec_eq_filter]
  by_cases h : content.data.filter (fun c => c.isDigit || c == '.') = []
  · rw [h]; decide
  · have h2 : (⟨content.data.filter fun c => c.isDigit || c == '.'⟩ : String) ≠ "" := by
      intro e
      exact h (String.ext_iff.mp e)
    rw [if_neg h2, if_neg h]

/-- C3: a successful reply is stored with every character other than a
digit or a dot removed, with the literal zero text when nothing
remains; the reply containing 45 dollars parses to the text 45.00. -/
theorem c3_success_price_stripping (s : State) (content : String)
    (h : (newErrors s.formData).isEmpty = true) :
    ((handleSubmit s (NetResponse.success content)).state.result =
      some { estimatedPrice :=
               if stripSpec content.data = [] then "0"
               else String.mk (stripSpec content.data)
             data := s.formData }) ∧
    estimatedPriceOf "$45.00 approximately" = "45.00" := by
  refine ⟨?_, by decide⟩
  simp [handleSubmit, h, estimatedPriceOf_eq_spec]

/-- Witness for C3 at a concrete valid state and reply. -/
theorem c3_witness :
    (newErrors staleErrorState.formData).isEmpty = true ∧
    estimatedPriceOf "$45.00 approximately" = "45.00" :=
  ⟨by decide,
   (c3_success_price_stripping staleErrorState "$45.00 approximately"
      (by decide)).2⟩

/-- C4 counterexample: the reply consisting of the words I cannot
estimate followed by a period contains no digit, yet it parses to the
dot text rather than to the zero text, because the stripping keeps
dots. -/
theorem c4_counterexample :
    (∀ c ∈ ("I cannot estimate." : String).data, c.isDigit = false) ∧
    estimatedPriceOf "I cannot estimate." = "." ∧
    estimatedPriceOf "I cannot estimate." ≠ "0" := by decide

/-- C4 amended: a reply containing neither a digit nor a dot parses to
the literal zero text. -/
theorem c4_no_digit_no_dot_parses_zero (content : String)
    (h : ∀ c ∈ content.data, c.isDigit = false ∧ c ≠ '.') :
    estimatedPriceOf content = "0" := by
  unfold estimatedPriceOf numericPrice
  have hnil : content.data.filter (fun c => c.isDigit || c == '.') = [] := by
    rw [List.filter_eq_nil_iff]
    intro a ha
    simp [(h a ha).1, (h a ha).2]
  rw [hnil]
  decide

/-- Witness for C4 amended on a dot-free reply. -/
theorem c4_witness :
    (∀ c ∈ ("I cannot estimate" : String).data, c.isDigit = false ∧ c ≠ '.') ∧
    estimatedPriceOf "I cannot estimate" = "0" :=
  ⟨by decide, c4_no_digit_no_dot_parses_zero "I cannot estimate" (by decide)⟩

/-- C10: in every reachable state, a stored result carries a snapshot
that passes validation — its fresh error map is empty. -/
theorem c10_result_snapshot_valid {s : State} (hs : Reachable s) :
    ∀ r : Result, s.result = some r → (newErrors r.data).isEmpty = true := by
  induction hs with
  | init =>
    intro r hr
    simp [initialState] at hr
  | change u h ih =>
    intro r hr
    cases u <;> exact ih r hr
  | validate h ih =>
    intro r hr
    exact ih r hr
  | @submit s resp h ih =>
    intro r hr
    by_cases hv : (newErrors s.formData).isEmpty = true
    · cases resp with
      | success content =>
        simp [handleSubmit, hv] at hr
        subst hr
        exact hv
      | failure =>
        simp [handleSubmit, hv] at hr
        exact ih r hr
    · simp [handleSubmit, hv] at hr
      exact ih r hr
  | reset h ih =>
    intro r hr
    simp [handleReset] at hr

/-- Witness for C10: the state reached by filling the three text
fields and submitting with a successful reply of 32 holds a result,
and its snapshot validates. -/
theorem c10_witness :
    ((handleSubmit (handleChange (handleChange (handleChange initialState
        (FieldUpdate.brand "Nike")) (FieldUpdate.category "Hoodie"))
        (FieldUpdate.originalPrice "80")) (NetResponse.success "32")).state.result =
      some { estimatedPrice := "32"
             data := { brand := "Nike", category := "Hoodie"
                       originalPrice := "80", clothingUse := .notWorn
                       yearsOld := .lessThan1 } }) ∧
    (newErrors { brand := "Nike", category := "Hoodie", originalPrice := "80"
                 clothingUse := .notWorn, yearsOld := .lessThan1 }).isEmpty = true :=
  ⟨by decide,
   c10_result_snapshot_valid
     (Reachable.submit (NetResponse.success "32")
       (Reachable.change (FieldUpdate.originalPrice "80")
         (Reachable.change (FieldUpdate.category "Hoodie")
           (Reachable.change (FieldUpdate.brand "Nike") Reachable.init))))
     { estimatedPrice := "32"
       data := { brand := "Nike", category := "Hoodie", originalPrice := "80"
                 clothingUse := .notWorn, yearsOld := .lessThan1 } }
     (by decide)⟩
